import Mathlib

/-!
Verification of the candidate-selection (Pareto dominance) core and the
action-pipeline orchestration engine of the lium CLI, shallowly embedded
from the Python sources (`src/cli/utils.py`, `src/cli/core/…`,
`src/lium/sdk/client.py`).

Numeric machine attributes are modelled as rationals; the single minimized
metric (unit price) lives in `WithTop ℚ` so the `float('inf')` sentinel of
the source is representable.  Missing dictionary entries are modelled as
`Option` values, `none` standing for a missing key or a missing enclosing
dictionary.
-/

namespace LiumCLI

/-- A rentable machine descriptor as consumed by `extract_executor_metrics`
and the filter helpers.  The numeric leaves of the nested `specs` dictionary
are flattened to optional rationals: `none` stands for a missing key, a
missing enclosing dictionary, or an empty `details` list — the cases that
Python's `dict.get` defaults and the `if gpu_details else 0` guards collapse
to the same fallback. -/
structure ExecutorInfo where
  id : String := ""
  huid : String := ""
  gpu_count : Option Nat := none
  country_code : Option String := none
  available_port_count : Option Nat := none
  price_per_gpu_hour : Option ℚ := none
  gpu_capacity : Option ℚ := none
  pcie_speed : Option ℚ := none
  memory_speed : Option ℚ := none
  graphics_speed : Option ℚ := none
  ram_total : Option ℚ := none
  disk_total : Option ℚ := none
  upload_speed : Option ℚ := none
  download_speed : Option ℚ := none
deriving DecidableEq, Inhabited

/-- The nine-entry metric dictionary produced by `extract_executor_metrics`
(src/cli/utils.py:41), fields listed in the insertion order of the Python
dict literal.  `price_per_gpu_hour` is the only minimized metric. -/
structure Metrics where
  price_per_gpu_hour : WithTop ℚ
  vram_gb : ℚ
  ram_gb : ℚ
  disk_gb : ℚ
  pcie_speed : ℚ
  memory_bandwidth : ℚ
  tflops : ℚ
  net_up : ℚ
  net_down : ℚ
deriving DecidableEq

instance : Inhabited Metrics :=
  ⟨⟨⊤, 0, 0, 0, 0, 0, 0, 0, 0⟩⟩

/-- `extract_executor_metrics` (src/cli/utils.py:41).  The price is
`executor.price_per_gpu_hour or float('inf')`: Python's `or` substitutes the
infinity sentinel both for `None` and for a falsy `0.0` price, which the
`if p = 0` branch mirrors.  Every maximized metric falls back to `0` through
`dict.get(…, 0)` (unit conversions kept as in the source). -/
def extract_executor_metrics (e : ExecutorInfo) : Metrics where
  price_per_gpu_hour :=
    match e.price_per_gpu_hour with
    | none => ⊤
    | some p => if p = 0 then ⊤ else (p : WithTop ℚ)
  vram_gb := e.gpu_capacity.getD 0 / 1024
  ram_gb := e.ram_total.getD 0 / (1024 * 1024)
  disk_gb := e.disk_total.getD 0 / (1024 * 1024)
  pcie_speed := e.pcie_speed.getD 0
  memory_bandwidth := e.memory_speed.getD 0
  tflops := e.graphics_speed.getD 0
  net_up := e.upload_speed.getD 0
  net_down := e.download_speed.getD 0

/-- Result of one iteration of the comparison loop of `dominates`:
A strictly better, B strictly better, or a tie on this metric. -/
inductive MetricCmp where
  | aBetter
  | bBetter
  | tie
deriving DecidableEq

/-- Comparison step of `dominates` for the minimized metric
(`val_a < val_b` means A better, `val_a > val_b` means B better). -/
def cmpMin (a b : WithTop ℚ) : MetricCmp :=
  if a < b then .aBetter else if b < a then .bBetter else .tie

/-- Comparison step of `dominates` for a maximized metric
(`val_a > val_b` means A better, `val_a < val_b` means B better). -/
def cmpMax (a b : ℚ) : MetricCmp :=
  if b < a then .aBetter else if a < b then .bBetter else .tie

/-- The per-metric comparisons performed by the loop of `dominates`
(src/cli/utils.py:67), in the iteration order of the metric dictionary:
the minimized price first, then the eight maximized metrics. -/
def metricCmps (a b : Metrics) : List MetricCmp :=
  [ cmpMin a.price_per_gpu_hour b.price_per_gpu_hour,
    cmpMax a.vram_gb b.vram_gb,
    cmpMax a.ram_gb b.ram_gb,
    cmpMax a.disk_gb b.disk_gb,
    cmpMax a.pcie_speed b.pcie_speed,
    cmpMax a.memory_bandwidth b.memory_bandwidth,
    cmpMax a.tflops b.tflops,
    cmpMax a.net_up b.net_up,
    cmpMax a.net_down b.net_down ]

/-- Loop body of `dominates` (src/cli/utils.py:67): walk the comparisons in
order, return `false` as soon as B is strictly better on some metric, and
otherwise remember in the accumulator whether A was strictly better at
least once (`at_least_one_better`). -/
def dominatesAux : List MetricCmp → Bool → Bool
  | [], atLeastOneBetter => atLeastOneBetter
  | .bBetter :: _, _ => false
  | .aBetter :: rest, _ => dominatesAux rest true
  | .tie :: rest, acc => dominatesAux rest acc

/-- `dominates` (src/cli/utils.py:67): Pareto dominance of metric map A
over metric map B. -/
def dominates (a b : Metrics) : Bool :=
  dominatesAux (metricCmps a b) false

/-- `calculate_pareto_frontier` (src/cli/utils.py:94): extract the metric
maps of all executors and flag executor `i` as Pareto-optimal unless some
other executor `j ≠ i` dominates it. -/
def calculate_pareto_frontier (executors : List ExecutorInfo) : List Bool :=
  let metrics_list := executors.map extract_executor_metrics
  (List.range metrics_list.length).map (fun i =>
    ! (List.range metrics_list.length).any (fun j =>
        decide (j ≠ i) && dominates (metrics_list.getD j default) (metrics_list.getD i default)))

/-- Dominance as worded by the specification (§4.1): at least as good on
every metric (value ≤ the other's on the minimized unit price, value ≥ the
other's on every maximized metric) and strictly better on at least one. -/
def SpecDominates (a b : Metrics) : Prop :=
  (a.price_per_gpu_hour ≤ b.price_per_gpu_hour ∧
   b.vram_gb ≤ a.vram_gb ∧ b.ram_gb ≤ a.ram_gb ∧ b.disk_gb ≤ a.disk_gb ∧
   b.pcie_speed ≤ a.pcie_speed ∧ b.memory_bandwidth ≤ a.memory_bandwidth ∧
   b.tflops ≤ a.tflops ∧ b.net_up ≤ a.net_up ∧ b.net_down ≤ a.net_down) ∧
  (a.price_per_gpu_hour < b.price_per_gpu_hour ∨
   b.vram_gb < a.vram_gb ∨ b.ram_gb < a.ram_gb ∨ b.disk_gb < a.disk_gb ∨
   b.pcie_speed < a.pcie_speed ∨ b.memory_bandwidth < a.memory_bandwidth ∨
   b.tflops < a.tflops ∨ b.net_up < a.net_up ∨ b.net_down < a.net_down)

instance (a b : Metrics) : Decidable (SpecDominates a b) := by
  unfold SpecDominates; infer_instance

lemma dominatesAux_eq_true (l : List MetricCmp) (acc : Bool) :
    dominatesAux l acc = true ↔ (MetricCmp.bBetter ∉ l) ∧ (acc = true ∨ MetricCmp.aBetter ∈ l) := by
  induction l generalizing acc with
  | nil => simp [dominatesAux]
  | cons c rest ih =>
    cases c with
    | aBetter => simp [dominatesAux, ih]
    | bBetter => simp [dominatesAux]
    | tie => simp [dominatesAux, ih]

lemma cmpMin_eq_aBetter (x y : WithTop ℚ) : cmpMin x y = .aBetter ↔ x < y := by
  unfold cmpMin
  split
  · simp_all
  · split <;> simp_all

lemma cmpMin_eq_bBetter (x y : WithTop ℚ) : cmpMin x y = .bBetter ↔ y < x := by
  unfold cmpMin
  split
  · rename_i h; simp [asymm h]
  · split <;> simp_all

lemma cmpMax_eq_aBetter (x y : ℚ) : cmpMax x y = .aBetter ↔ y < x := by
  unfold cmpMax
  split
  · simp_all
  · split <;> simp_all

lemma cmpMax_eq_bBetter (x y : ℚ) : cmpMax x y = .bBetter ↔ x < y := by
  unfold cmpMax
  split
  · rename_i h; simp [asymm h]
  · split <;> simp_all

lemma aBetter_eq_cmpMin (x y : WithTop ℚ) : MetricCmp.aBetter = cmpMin x y ↔ x < y := by
  rw [eq_comm, cmpMin_eq_aBetter]

lemma bBetter_eq_cmpMin (x y : WithTop ℚ) : MetricCmp.bBetter = cmpMin x y ↔ y < x := by
  rw [eq_comm, cmpMin_eq_bBetter]

lemma aBetter_eq_cmpMax (x y : ℚ) : MetricCmp.aBetter = cmpMax x y ↔ y < x := by
  rw [eq_comm, cmpMax_eq_aBetter]

lemma bBetter_eq_cmpMax (x y : ℚ) : MetricCmp.bBetter = cmpMax x y ↔ x < y := by
  rw [eq_comm, cmpMax_eq_bBetter]

/-- The loop of `dominates` computes exactly the dominance relation worded
by the specification. -/
lemma dominates_iff (a b : Metrics) : dominates a b = true ↔ SpecDominates a b := by
  unfold dominates SpecDominates
  rw [dominatesAux_eq_true]
  simp only [metricCmps, List.mem_cons, List.not_mem_nil, or_false,
    aBetter_eq_cmpMin, bBetter_eq_cmpMin, aBetter_eq_cmpMax, bBetter_eq_cmpMax,
    not_or, not_lt, Bool.false_eq_true, false_or]

lemma bool_not_eq_true (b : Bool) : (!b) = true ↔ b = false := by
  cases b <;> simp

lemma bool_eq_false_iff (b : Bool) : b = false ↔ ¬ b = true := by
  cases b <;> simp

lemma getD_map_extract (l : List ExecutorInfo) (k : Nat) (hk : k < l.length) :
    (l.map extract_executor_metrics).getD k default =
      extract_executor_metrics (l.getD k default) := by
  rw [List.getD_eq_getElem _ _ (by simpa using hk), List.getD_eq_getElem _ _ hk,
    List.getElem_map]

/-- The metric map of an executor never dominates itself: every comparison
of the loop is a tie, so no strict improvement is found. -/
lemma dominates_self (m : Metrics) : dominates m m = false := by
  simp [dominates, metricCmps, cmpMin, cmpMax, dominatesAux]

/-- C1: the Selector marks candidate `i` as Pareto-optimal if and only if no
other candidate `j` of the list dominates it, where domination is the
specification's relation: at least as good on every (sentinel-substituted)
metric — `≤` on the minimized unit price, `≥` on every maximized metric —
and strictly better on at least one. -/
theorem pareto_flag_iff_not_dominated (executors : List ExecutorInfo) (i : Nat)
    (hi : i < executors.length) :
    (calculate_pareto_frontier executors).getD i false = true ↔
      ¬ ∃ j, j < executors.length ∧ j ≠ i ∧
        SpecDominates
          (extract_executor_metrics (executors.getD j default))
          (extract_executor_metrics (executors.getD i default)) := by
  have hlen : (executors.map extract_executor_metrics).length = executors.length := by
    simp
  have key : calculate_pareto_frontier executors =
      (List.range executors.length).map (fun a =>
        ! (List.range executors.length).any (fun j =>
            decide (j ≠ a) &&
              dominates ((executors.map extract_executor_metrics).getD j default)
                ((executors.map extract_executor_metrics).getD a default))) := by
    simp only [calculate_pareto_frontier, hlen]
  rw [key, List.getD_eq_getElem _ _ (by simpa using hi), List.getElem_map,
    List.getElem_range, bool_not_eq_true, bool_eq_false_iff]
  apply not_congr
  rw [List.any_eq_true]
  constructor
  · rintro ⟨j, hjmem, hp⟩
    rw [Bool.and_eq_true, decide_eq_true_eq] at hp
    obtain ⟨hne, hdom⟩ := hp
    have hj := List.mem_range.mp hjmem
    rw [getD_map_extract _ _ hj, getD_map_extract _ _ hi, dominates_iff] at hdom
    exact ⟨j, hj, hne, hdom⟩
  · rintro ⟨j, hj, hne, hdom⟩
    refine ⟨j, List.mem_range.mpr hj, ?_⟩
    rw [Bool.and_eq_true, decide_eq_true_eq]
    refine ⟨hne, ?_⟩
    rw [getD_map_extract _ _ hj, getD_map_extract _ _ hi, dominates_iff]
    exact hdom

/-- The three-candidate catalog of spec §8: prices 2, 1, 1 and GPU memory
capacities 80 GiB, 40 GiB, 80 GiB (capacity is stored in MiB). -/
def exC1a : ExecutorInfo := { price_per_gpu_hour := some 2, gpu_capacity := some (80 * 1024) }

def exC1b : ExecutorInfo := { price_per_gpu_hour := some 1, gpu_capacity := some (40 * 1024) }

def exC1c : ExecutorInfo := { price_per_gpu_hour := some 1, gpu_capacity := some (80 * 1024) }

/-- Witness for `pareto_flag_iff_not_dominated`: on the concrete catalog of
spec §8 the third candidate is flagged Pareto-optimal, and indeed no other
candidate dominates it. -/
theorem pareto_flag_iff_not_dominated_witness :
    (calculate_pareto_frontier [exC1a, exC1b, exC1c]).getD 2 false = true :=
  (pareto_flag_iff_not_dominated [exC1a, exC1b, exC1c] 2 (by norm_num)).mpr (by
    rintro ⟨j, hj, hne, hdom⟩
    have hj3 : j < 3 := by simpa using hj
    interval_cases j
    · revert hdom
      norm_num [SpecDominates, extract_executor_metrics, exC1a, exC1b, exC1c,
        List.getD_cons_zero, List.getD_cons_succ]
    · revert hdom
      norm_num [SpecDominates, extract_executor_metrics, exC1a, exC1b, exC1c,
        List.getD_cons_zero, List.getD_cons_succ]
    · exact hne rfl)

/-- C10: metric maps that are equal on every metric (in particular because a
metric missing on both candidates received the same sentinel) never dominate
each other — dominance needs a strict improvement — so a catalog whose
candidates all share one metric map is marked entirely Pareto-optimal, and
`dominates m m = false` for every metric map `m`. -/
theorem equal_metrics_mutual_nondominance :
    (∀ m : Metrics, dominates m m = false) ∧
    (∀ a b : ExecutorInfo,
        extract_executor_metrics a = extract_executor_metrics b →
        dominates (extract_executor_metrics a) (extract_executor_metrics b) = false ∧
        dominates (extract_executor_metrics b) (extract_executor_metrics a) = false) ∧
    (∀ executors : List ExecutorInfo,
        (∀ e1 ∈ executors, ∀ e2 ∈ executors,
            extract_executor_metrics e1 = extract_executor_metrics e2) →
        calculate_pareto_frontier executors = List.replicate executors.length true) := by
  refine ⟨dominates_self, ?_, ?_⟩
  · intro a b h
    exact ⟨by rw [h]; exact dominates_self _, by rw [h]; exact dominates_self _⟩
  · intro ex h
    rw [List.eq_replicate_iff]
    refine ⟨by simp [calculate_pareto_frontier], ?_⟩
    intro b hb
    simp only [calculate_pareto_frontier, List.length_map, List.mem_map,
      List.mem_range] at hb
    obtain ⟨i, hi, rfl⟩ := hb
    rw [bool_not_eq_true, List.any_eq_false]
    intro j hjmem
    rw [List.mem_range] at hjmem
    have hmem : ∀ k, k < ex.length → ex.getD k default ∈ ex := by
      intro k hk
      rw [List.getD_eq_getElem _ _ hk]
      exact List.getElem_mem _
    have heq : (ex.map extract_executor_metrics).getD j default =
        (ex.map extract_executor_metrics).getD i default := by
      rw [getD_map_extract _ _ hjmem, getD_map_extract _ _ hi]
      exact h _ (hmem j hjmem) _ (hmem i hi)
    rw [heq, dominates_self]
    simp

/-- Witness for `equal_metrics_mutual_nondominance`: two copies of one
candidate share a metric map (their attributes beyond price and capacity
are missing on both copies and receive identical sentinels), do not
dominate each other, and are both flagged Pareto-optimal. -/
theorem equal_metrics_mutual_nondominance_witness :
    dominates (extract_executor_metrics exC1a) (extract_executor_metrics exC1a) = false ∧
    calculate_pareto_frontier [exC1a, exC1a] = [true, true] := by
  refine ⟨(equal_metrics_mutual_nondominance.2.1 exC1a exC1a rfl).1, ?_⟩
  have h := equal_metrics_mutual_nondominance.2.2 [exC1a, exC1a] (by
    intro e1 h1 e2 h2
    simp only [List.mem_cons, List.not_mem_nil, or_false] at h1 h2
    rw [h1.elim id id, h2.elim id id])
  simpa using h

/-- C2: before any dominance comparison a missing value of the single
minimized metric (unit price) is substituted with the `+∞` sentinel and a
missing value of any maximized metric with `0`, the worst value for its
direction; consequently a candidate with a missing price can neither
undercut any other candidate's price nor escape being matched on it, and a
candidate missing a maximized attribute is at most as good there as any
candidate whose raw attribute value is nonnegative. -/
theorem missing_metric_worst_sentinel (e : ExecutorInfo) :
    (e.price_per_gpu_hour = none →
      (extract_executor_metrics e).price_per_gpu_hour = ⊤ ∧
      ∀ f : ExecutorInfo,
        (extract_executor_metrics f).price_per_gpu_hour ≤
          (extract_executor_metrics e).price_per_gpu_hour) ∧
    (e.gpu_capacity = none →
      (extract_executor_metrics e).vram_gb = 0 ∧
      ∀ f : ExecutorInfo, 0 ≤ f.gpu_capacity.getD 0 →
        (extract_executor_metrics e).vram_gb ≤ (extract_executor_metrics f).vram_gb) ∧
    (e.ram_total = none →
      (extract_executor_metrics e).ram_gb = 0 ∧
      ∀ f : ExecutorInfo, 0 ≤ f.ram_total.getD 0 →
        (extract_executor_metrics e).ram_gb ≤ (extract_executor_metrics f).ram_gb) ∧
    (e.disk_total = none →
      (extract_executor_metrics e).disk_gb = 0 ∧
      ∀ f : ExecutorInfo, 0 ≤ f.disk_total.getD 0 →
        (extract_executor_metrics e).disk_gb ≤ (extract_executor_metrics f).disk_gb) ∧
    (e.pcie_speed = none →
      (extract_executor_metrics e).pcie_speed = 0 ∧
      ∀ f : ExecutorInfo, 0 ≤ f.pcie_speed.getD 0 →
        (extract_executor_metrics e).pcie_speed ≤ (extract_executor_metrics f).pcie_speed) ∧
    (e.memory_speed = none →
      (extract_executor_metrics e).memory_bandwidth = 0 ∧
      ∀ f : ExecutorInfo, 0 ≤ f.memory_speed.getD 0 →
        (extract_executor_metrics e).memory_bandwidth ≤
          (extract_executor_metrics f).memory_bandwidth) ∧
    (e.graphics_speed = none →
      (extract_executor_metrics e).tflops = 0 ∧
      ∀ f : ExecutorInfo, 0 ≤ f.graphics_speed.getD 0 →
        (extract_executor_metrics e).tflops ≤ (extract_executor_metrics f).tflops) ∧
    (e.upload_speed = none →
      (extract_executor_metrics e).net_up = 0 ∧
      ∀ f : ExecutorInfo, 0 ≤ f.upload_speed.getD 0 →
        (extract_executor_metrics e).net_up ≤ (extract_executor_metrics f).net_up) ∧
    (e.download_speed = none →
      (extract_executor_metrics e).net_down = 0 ∧
      ∀ f : ExecutorInfo, 0 ≤ f.download_speed.getD 0 →
        (extract_executor_metrics e).net_down ≤ (extract_executor_metrics f).net_down) := by
  refine ⟨?_, ?_, ?_, ?_, ?_, ?_, ?_, ?_, ?_⟩ <;> intro h
  · refine ⟨by simp [extract_executor_metrics, h], ?_⟩
    intro f
    simp [extract_executor_metrics, h]
  · refine ⟨by simp [extract_executor_metrics, h], ?_⟩
    intro f hf
    simp only [extract_executor_metrics, h, Option.getD_none, zero_div]
    exact div_nonneg hf (by norm_num)
  · refine ⟨by simp [extract_executor_metrics, h], ?_⟩
    intro f hf
    simp only [extract_executor_metrics, h, Option.getD_none, zero_div]
    exact div_nonneg hf (by norm_num)
  · refine ⟨by simp [extract_executor_metrics, h], ?_⟩
    intro f hf
    simp only [extract_executor_metrics, h, Option.getD_none, zero_div]
    exact div_nonneg hf (by norm_num)
  · refine ⟨by simp [extract_executor_metrics, h], ?_⟩
    intro f hf
    simpa [extract_executor_metrics, h] using hf
  · refine ⟨by simp [extract_executor_metrics, h], ?_⟩
    intro f hf
    simpa [extract_executor_metrics, h] using hf
  · refine ⟨by simp [extract_executor_metrics, h], ?_⟩
    intro f hf
    simpa [extract_executor_metrics, h] using hf
  · refine ⟨by simp [extract_executor_metrics, h], ?_⟩
    intro f hf
    simpa [extract_executor_metrics, h] using hf
  · refine ⟨by simp [extract_executor_metrics, h], ?_⟩
    intro f hf
    simpa [extract_executor_metrics, h] using hf

/-- An executor descriptor with every attribute missing. -/
def exEmpty : ExecutorInfo := {}

/-- Witness for `missing_metric_worst_sentinel` on a descriptor with every
attribute missing: the price sentinel is `⊤`, the capacity sentinel is `0`,
and it cannot beat a candidate with a present nonnegative attribute. -/
theorem missing_metric_worst_sentinel_witness :
    (extract_executor_metrics exEmpty).price_per_gpu_hour = ⊤ ∧
    (extract_executor_metrics exEmpty).vram_gb = 0 ∧
    (extract_executor_metrics exEmpty).vram_gb ≤ (extract_executor_metrics exC1a).vram_gb := by
  have h := missing_metric_worst_sentinel exEmpty
  exact ⟨(h.1 rfl).1, (h.2.1 rfl).1, (h.2.1 rfl).2 exC1a (by norm_num [exC1a])⟩

/-- Python truthiness of an optional integer argument: `None` and `0` are
falsy. -/
def truthyNat : Option Nat → Bool
  | none => false
  | some n => n != 0

/-- Python truthiness of an optional string argument: `None` and `""` are
falsy. -/
def truthyStr : Option String → Bool
  | none => false
  | some s => s != ""

/-- `_apply_executor_filters` (src/cli/core/helpers.py:17): keep executors
matching the requested GPU count, country code (case-insensitive) and
minimum available port count; each filter applies only when its argument is
truthy, and an executor with a missing location or a falsy port count never
passes the corresponding filter. -/
def _apply_executor_filters (executors : List ExecutorInfo)
    (gpu_count : Option Nat) (country_code : Option String) (ports : Option Nat) :
    List ExecutorInfo :=
  let executors := if truthyNat gpu_count then
      executors.filter (fun e => e.gpu_count == gpu_count)
    else executors
  let executors := if truthyStr country_code then
      executors.filter (fun e =>
        match e.country_code with
        | none => false
        | some cc => cc.toUpper == (country_code.getD "").toUpper)
    else executors
  if truthyNat ports then
    executors.filter (fun e =>
      match e.available_port_count with
      | none => false
      | some p => p != 0 && decide (ports.getD 0 ≤ p))
  else executors

/-- `_auto_select_executor` (src/cli/core/helpers.py:108).  The catalog
fetch `lium.ls(gpu_type=gpu)` is an HTTP call external to this module and is
passed in as the function `ls`; the SDK returns the executors in response
order and promises no sorting.  The `ls_store_executor` call only refreshes
the process-local index cache and does not affect the selection; the error
messages printed on an empty filter result do not either. -/
def _auto_select_executor (ls : Option String → List ExecutorInfo)
    (gpu : Option String) (count : Option Nat) (country : Option String)
    (ports : Option Nat) : Option ExecutorInfo :=
  match _apply_executor_filters (ls gpu) count country ports with
  | [] => none
  | e0 :: rest =>
    let executors := e0 :: rest
    let pareto_flags := calculate_pareto_frontier executors
    let pareto_executors := (executors.zip pareto_flags).filterMap
        (fun q => if q.2 then some q.1 else none)
    some (pareto_executors.headD e0)

/-- Two-candidate catalog refuting the ascending-price selection order:
both candidates are Pareto-optimal (the first trades a higher price for a
higher PCIe speed), and the first in input order has the higher price. -/
def cexA : ExecutorInfo := { huid := "exec-a", price_per_gpu_hour := some 2, pcie_speed := some 80 }

def cexB : ExecutorInfo := { huid := "exec-b", price_per_gpu_hour := some 1, pcie_speed := some 40 }

lemma dominates_cexAB :
    dominates (extract_executor_metrics cexA) (extract_executor_metrics cexB) = false := by
  norm_num [dominates, metricCmps, extract_executor_metrics, cexA, cexB,
    cmpMin, cmpMax, dominatesAux, WithTop.coe_lt_coe]

lemma dominates_cexBA :
    dominates (extract_executor_metrics cexB) (extract_executor_metrics cexA) = false := by
  norm_num [dominates, metricCmps, extract_executor_metrics, cexA, cexB,
    cmpMin, cmpMax, dominatesAux, WithTop.coe_lt_coe]

lemma pareto_cexAB : calculate_pareto_frontier [cexA, cexB] = [true, true] := by
  simp [calculate_pareto_frontier, List.range_succ, dominates_cexAB, dominates_cexBA,
    List.getD_cons_zero, List.getD_cons_succ]

/-- Counterexample to C3: on the two-candidate catalog `[cexA, cexB]` both
candidates are Pareto-optimal and `cexB` has the strictly lower unit price,
yet auto-select returns `cexA` — the first Pareto-optimal candidate in
original input order, not the first under ascending unit price. -/
theorem auto_select_not_by_ascending_price :
    _auto_select_executor (fun _ => [cexA, cexB]) none none none none = some cexA ∧
    calculate_pareto_frontier [cexA, cexB] = [true, true] ∧
    (extract_executor_metrics cexB).price_per_gpu_hour <
      (extract_executor_metrics cexA).price_per_gpu_hour ∧
    cexA ≠ cexB := by
  refine ⟨?_, pareto_cexAB, ?_, ?_⟩
  · simp [_auto_select_executor, _apply_executor_filters, truthyNat, truthyStr,
      pareto_cexAB]
  · norm_num [extract_executor_metrics, cexA, cexB, WithTop.coe_lt_coe]
  · simp [cexA, cexB]

lemma head?_filterMap_if {α : Type} (l : List (α × Bool)) :
    (l.filterMap (fun q => if q.2 then some q.1 else none)).head? =
      (l.find? (fun q => q.2)).map Prod.fst := by
  induction l with
  | nil => simp
  | cons a t ih =>
    by_cases h : a.2 = true
    · simp [List.filterMap_cons, h, List.find?_cons_of_pos]
    · have h' : a.2 = false := by revert h; cases a.2 <;> simp
      simp [List.filterMap_cons, h', List.find?_cons_of_neg, ih]

/-- C3 (amended): for every filtered candidate list, auto-select returns the
first candidate in original input order that is flagged Pareto-optimal; if
no candidate carries the flag it falls back to the first candidate in
original input order, and an empty filter result yields `none` with no
error raised. -/
theorem auto_select_first_pareto_in_input_order
    (ls : Option String → List ExecutorInfo) (gpu : Option String)
    (count : Option Nat) (country : Option String) (ports : Option Nat) :
    (_apply_executor_filters (ls gpu) count country ports = [] →
        _auto_select_executor ls gpu count country ports = none) ∧
    (∀ e0 rest, _apply_executor_filters (ls gpu) count country ports = e0 :: rest →
        _auto_select_executor ls gpu count country ports =
          some (((((e0 :: rest).zip (calculate_pareto_frontier (e0 :: rest))).find?
                (fun q => q.2)).map Prod.fst).getD e0)) := by
  constructor
  · intro h
    unfold _auto_select_executor
    rw [h]
  · intro e0 rest h
    unfold _auto_select_executor
    rw [h]
    simp only []
    congr 1
    rw [List.headD_eq_head?_getD, head?_filterMap_if]

/-- Witness for `auto_select_first_pareto_in_input_order` on the concrete
two-candidate catalog `[cexA, cexB]`. -/
theorem auto_select_first_pareto_witness :
    _auto_select_executor (fun _ => [cexA, cexB]) none none none none =
      some (((([cexA, cexB].zip (calculate_pareto_frontier [cexA, cexB])).find?
          (fun q => q.2)).map Prod.fst).getD cexA) :=
  (auto_select_first_pareto_in_input_order (fun _ => [cexA, cexB])
      none none none none).2 cexA [cexB]
    (by simp [_apply_executor_filters, truthyNat, truthyStr])

/-! ## The pipeline Runner (src/cli/core/pipeline.py) -/

/-- Outcome of one action's `execute` (src/cli/core/actions/base.py):
`cont` models a `None`/`True` return (continue the pipeline), `stop` a
`False` return (voluntary stop), `err` a raised exception carrying its
message. -/
inductive ExecOutcome where
  | cont
  | stop
  | err (msg : String)
deriving DecidableEq

/-- A reporter call available to actions (`src/cli/core/reporter.py`): the
`step` context manager and the one-line message methods.  `set_total_steps`
is called only by the Runner and is deliberately not in this type. -/
inductive AEvent where
  | stepStart (title : String)
  | errorMsg (text : String)
  | warningMsg (text : String)
  | successMsg (text : String)
  | infoMsg (text : String)
  | dimMsg (text : String)
deriving DecidableEq

/-- A reporter event over a whole pipeline run: the Runner's single
`set_total_steps` call, or any reporter call made while executing actions. -/
inductive REvent where
  | totalSteps (n : Nat)
  | rep (e : AEvent)
deriving DecidableEq

/-- What one action execution leaves behind: the context state, the reporter
events it emitted, and its outcome. -/
structure ExecResult (σ : Type) where
  state : σ
  events : List AEvent
  outcome : ExecOutcome

/-- The Action contract (src/cli/core/actions/base.py): gating
(`should_run`, default `True`), progress visibility (`counts_as_step`,
default `True`), and `execute`. -/
structure PAction (σ : Type) where
  name : String
  should_run : σ → Bool := fun _ => true
  counts_as_step : σ → Bool := fun _ => true
  execute : σ → ExecResult σ

/-- How a pipeline run ended.  Both `completed` and `stopped` are normal
returns of `run_pipeline` (the Python function returns `None` in both
cases); only `raised` propagates an exception to the caller. -/
inductive RunOutcome where
  | completed
  | stopped
  | raised (msg : String)
deriving DecidableEq

/-- State, reporter events and outcome of the Runner's execution loop. -/
structure RunResult (σ : Type) where
  state : σ
  events : List AEvent
  outcome : RunOutcome
deriving DecidableEq

/-- The execution loop of `run_pipeline` (src/cli/core/pipeline.py:55): skip
actions whose `should_run` is false; propagate each executed action's state
and reporter events; return on a `False` result; on a raised error report
`Action <name> failed: <error>` via the reporter and re-raise the original
error. -/
def runLoop {σ : Type} : σ → List (PAction σ) → RunResult σ
  | s, [] => ⟨s, [], .completed⟩
  | s, a :: rest =>
    if a.should_run s then
      let r := a.execute s
      match r.outcome with
      | .cont =>
        let w := runLoop r.state rest
        ⟨w.state, r.events ++ w.events, w.outcome⟩
      | .stop => ⟨r.state, r.events, .stopped⟩
      | .err m =>
        ⟨r.state, r.events ++ [.errorMsg ("Action " ++ a.name ++ " failed: " ++ m)],
         .raised m⟩
    else runLoop s rest

/-- `total_steps` of `run_pipeline` (src/cli/core/pipeline.py:51): the count
of actions whose `should_run` and `counts_as_step` both hold on the incoming
context. -/
def countSteps {σ : Type} (s : σ) (actions : List (PAction σ)) : Nat :=
  (actions.filter (fun a => a.should_run s && a.counts_as_step s)).length

/-- Full result of `run_pipeline`: final context state, reporter trace, and
how the run ended. -/
structure PipeResult (σ : Type) where
  state : σ
  trace : List REvent
  outcome : RunOutcome

/-- `run_pipeline` (src/cli/core/pipeline.py:38): compute `total_steps` on
the incoming context, report it through `set_total_steps`, then execute the
loop. -/
def run_pipeline {σ : Type} (s : σ) (actions : List (PAction σ)) : PipeResult σ :=
  let w := runLoop s actions
  ⟨w.state, .totalSteps (countSteps s actions) :: w.events.map .rep, w.outcome⟩

/-- Recognizer for the Runner's `set_total_steps` event. -/
def isTotalSteps : REvent → Bool
  | .totalSteps _ => true
  | .rep _ => false

lemma filter_isTotalSteps_map_rep (evs : List AEvent) :
    (evs.map REvent.rep).filter isTotalSteps = [] := by
  induction evs with
  | nil => rfl
  | cons e t ih => simp [isTotalSteps, ih]

/-- C4: the Runner computes `totalSteps` as the count of actions for which
`should_run` and `counts_as_step` both hold, and reports it through
`set_total_steps` exactly once, as the very first reporter event — before
any action executes; in particular on 3 actions where only the second has
`should_run = false` the single `set_total_steps` call carries the value 2. -/
theorem total_steps_reported_once_before_execution {σ : Type} (s : σ)
    (actions : List (PAction σ)) :
    (run_pipeline s actions).trace.head? =
      some (.totalSteps (countSteps s actions)) ∧
    ((run_pipeline s actions).trace.filter isTotalSteps).length = 1 ∧
    (∀ a1 a2 a3 : PAction σ, actions = [a1, a2, a3] →
      a1.should_run s = true → a2.should_run s = false → a3.should_run s = true →
      a1.counts_as_step s = true → a3.counts_as_step s = true →
      (run_pipeline s actions).trace.head? = some (.totalSteps 2)) := by
  refine ⟨by simp [run_pipeline], ?_, ?_⟩
  · simp [run_pipeline, isTotalSteps, filter_isTotalSteps_map_rep]
  · intro a1 a2 a3 hact h1 h2 h3 h4 h5
    subst hact
    have hcount : countSteps s [a1, a2, a3] = 2 := by
      simp [countSteps, List.filter, h1, h2, h3, h4, h5]
    simp [run_pipeline, hcount]

/-- Concrete test actions over a `Nat` context used by the witnesses. -/
def actInc (nm : String) : PAction Nat :=
  { name := nm, execute := fun n => ⟨n + 1, [], .cont⟩ }

def actSkip : PAction Nat :=
  { name := "skipped", should_run := fun _ => false,
    execute := fun n => ⟨n, [], .cont⟩ }

def actStop : PAction Nat :=
  { name := "stopper", execute := fun n => ⟨n, [.warningMsg "Cancelled"], .stop⟩ }

def actBoom : PAction Nat :=
  { name := "boom", execute := fun n => ⟨n + 7, [], .err "boom"⟩ }

/-- Witness for `total_steps_reported_once_before_execution`: 3 actions,
the second gated off, yield a single `set_total_steps` call with value 2. -/
theorem total_steps_reported_once_witness :
    (run_pipeline 0 [actInc "a", actSkip, actInc "c"]).trace.head? =
      some (.totalSteps 2) :=
  (total_steps_reported_once_before_execution 0 [actInc "a", actSkip, actInc "c"]).2.2
    (actInc "a") actSkip (actInc "c") rfl rfl rfl rfl rfl rfl

lemma runLoop_append {σ : Type} (s : σ) (xs ys : List (PAction σ)) :
    runLoop s (xs ++ ys) =
      if (runLoop s xs).outcome = .completed then
        ⟨(runLoop (runLoop s xs).state ys).state,
         (runLoop s xs).events ++ (runLoop (runLoop s xs).state ys).events,
         (runLoop (runLoop s xs).state ys).outcome⟩
      else runLoop s xs := by
  induction xs generalizing s with
  | nil => simp [runLoop]
  | cons a t ih =>
    by_cases hsr : a.should_run s = true
    · simp only [List.cons_append, runLoop, hsr, if_true]
      cases hout : (a.execute s).outcome with
      | cont =>
        simp only [List.append_eq]
        rw [ih ((a.execute s).state)]
        by_cases hc : (runLoop (a.execute s).state t).outcome = RunOutcome.completed <;>
          simp [hc, List.append_assoc]
      | stop => simp
      | err m => simp
    · simp only [List.cons_append, runLoop, hsr, if_false, Bool.false_eq_true]
      exact ih s

/-- C5: if an executed action returns `Stop` (`False`), the Runner
terminates immediately — the whole run result is independent of every
action after the stopping one (they appear only inside the up-front
`total_steps` count), and the Runner returns normally (`stopped`, not
`raised`). -/
theorem stop_halts_pipeline {σ : Type} (s : σ) (pre : List (PAction σ))
    (a : PAction σ) (rest : List (PAction σ))
    (hpre : (runLoop s pre).outcome = .completed)
    (hrun : a.should_run (runLoop s pre).state = true)
    (hstop : (a.execute (runLoop s pre).state).outcome = .stop) :
    run_pipeline s (pre ++ a :: rest) =
      ⟨(a.execute (runLoop s pre).state).state,
       .totalSteps (countSteps s (pre ++ a :: rest)) ::
         ((runLoop s pre).events ++
           (a.execute (runLoop s pre).state).events).map .rep,
       .stopped⟩ := by
  unfold run_pipeline
  rw [runLoop_append, if_pos hpre]
  simp [runLoop, hrun, hstop]

/-- Witness for `stop_halts_pipeline`: a stopping action in the middle of a
three-action pipeline; the trailing raising action never executes and the
run ends in `stopped`. -/
theorem stop_halts_pipeline_witness :
    run_pipeline 0 ([actInc "a"] ++ actStop :: [actBoom]) =
      ⟨(actStop.execute (runLoop 0 [actInc "a"]).state).state,
       .totalSteps (countSteps 0 ([actInc "a"] ++ actStop :: [actBoom])) ::
         ((runLoop 0 [actInc "a"]).events ++
           (actStop.execute (runLoop 0 [actInc "a"]).state).events).map .rep,
       .stopped⟩ :=
  stop_halts_pipeline 0 [actInc "a"] actStop [actBoom] rfl rfl rfl

/-- C6: if an executed action raises, the Runner reports the failure wrapped
with the raising Action's identity (`Action <name> failed: <error>`) as the
final reporter event and re-raises the original error; the whole run result
is independent of every action after the raising one, and the final context
state is exactly the state the raising action left behind — state changes
committed by earlier actions remain, no compensating rollback runs. -/
theorem raise_halts_pipeline {σ : Type} (s : σ) (pre : List (PAction σ))
    (a : PAction σ) (rest : List (PAction σ)) (m : String)
    (hpre : (runLoop s pre).outcome = .completed)
    (hrun : a.should_run (runLoop s pre).state = true)
    (herr : (a.execute (runLoop s pre).state).outcome = .err m) :
    run_pipeline s (pre ++ a :: rest) =
      ⟨(a.execute (runLoop s pre).state).state,
       .totalSteps (countSteps s (pre ++ a :: rest)) ::
         ((runLoop s pre).events ++
           ((a.execute (runLoop s pre).state).events ++
             [AEvent.errorMsg ("Action " ++ a.name ++ " failed: " ++ m)])).map .rep,
       .raised m⟩ := by
  unfold run_pipeline
  rw [runLoop_append, if_pos hpre]
  simp [runLoop, hrun, herr]

/-- Witness for `raise_halts_pipeline`: a raising action in the middle of a
three-action pipeline; the trailing action never executes, the error report
names the raising action, and the original error is re-raised. -/
theorem raise_halts_pipeline_witness :
    run_pipeline 0 ([actInc "a"] ++ actBoom :: [actInc "c"]) =
      ⟨(actBoom.execute (runLoop 0 [actInc "a"]).state).state,
       .totalSteps (countSteps 0 ([actInc "a"] ++ actBoom :: [actInc "c"])) ::
         ((runLoop 0 [actInc "a"]).events ++
           ((actBoom.execute (runLoop 0 [actInc "a"]).state).events ++
             [AEvent.errorMsg ("Action " ++ actBoom.name ++ " failed: " ++ "boom")])).map .rep,
       .raised "boom"⟩ :=
  raise_halts_pipeline 0 [actInc "a"] actBoom [actInc "c"] "boom" rfl rfl rfl

/-! ## The SDK's bounded-fan-out remote-command helper (src/lium/sdk/client.py) -/

/-- A pod descriptor as consumed by the SDK's `exec` helpers. -/
structure SdkPod where
  id : String := ""
  huid : String := ""
  name : String := ""
deriving DecidableEq, Inhabited

/-- Raw result of one SSH command: stdout, stderr, exit code. -/
structure SshRun where
  stdout : String
  stderr : String
  exit_code : Int
deriving DecidableEq

/-- One entry of the list returned by `exec_all`, mirroring the two dict
shapes built by `exec_single`: a completed `exec` result augmented with the
pod's id, or the error dict `{"pod": pod, "error": str(e), "success": False}`
built when `exec` raised for that pod. -/
inductive ExecAllEntry where
  | done (stdout stderr : String) (exit_code : Int) (success : Bool) (pod : String)
  | failed (pod : SdkPod) (error : String)
deriving DecidableEq

/-- The `success` flag carried by an `exec_all` entry (`False` on the error
dict). -/
def ExecAllEntry.success : ExecAllEntry → Bool
  | .done _ _ _ s _ => s
  | .failed _ _ => false

/-- `exec` (src/lium/sdk/client.py:638): run a command on one pod over SSH
and return stdout, stderr, the exit code, and a `success` flag set iff the
exit code is zero.  The SSH transport is external and passed in as `run`,
which may raise. -/
def sdk_exec (run : SdkPod → Except String SshRun) (pod : SdkPod) :
    Except String (String × String × Int × Bool) :=
  match run pod with
  | .error e => .error e
  | .ok r => .ok (r.stdout, r.stderr, r.exit_code, r.exit_code == 0)

/-- `exec_single` inside `exec_all` (src/lium/sdk/client.py:723): try
`exec` and tag its result dict with the pod's id; on a raised error return
the error dict with `success = False` instead of propagating. -/
def exec_single (run : SdkPod → Except String SshRun) (pod : SdkPod) :
    ExecAllEntry :=
  match sdk_exec run pod with
  | .ok (o, e, c, s) => .done o e c s pod.id
  | .error e => .failed pod e

/-- `exec_all` (src/lium/sdk/client.py:704): map `exec_single` over the
targets.  The pool is built as
`ThreadPoolExecutor(max_workers=min(max_workers, len(pods)))`: when that
minimum is zero — in particular on an empty pod list — the constructor
raises `ValueError("max_workers must be greater than 0")` before any work
is dispatched.  Otherwise `ThreadPoolExecutor.map` dispatches one unit of
work per pod up to the cap and returns the per-target results in input
order; the cap then only bounds parallelism. -/
def exec_all (run : SdkPod → Except String SshRun) (max_workers : Nat)
    (pods : List SdkPod) : Except String (List ExecAllEntry) :=
  if min max_workers pods.length = 0 then
    .error "max_workers must be greater than 0"
  else
    .ok (pods.map (exec_single run))

/-- C9: on a non-empty target list (and a positive worker cap, the callers
use the default 10) `exec_all` does not raise — it returns a result list
with exactly one entry per target, in input order; the entry of each target
is that target's own `exec_single` outcome (the tagged result when the
transport succeeded, an error entry with `success = false` when it raised),
so an individual target's failure never propagates out of the call; in
particular on 3 targets of which exactly the second fails, the result has
length 3 with exactly one entry whose success flag is false. -/
theorem exec_all_one_entry_per_target
    (run : SdkPod → Except String SshRun) (max_workers : Nat)
    (pods : List SdkPod) (hw : 0 < max_workers) (hne : pods ≠ []) :
    ∃ out, exec_all run max_workers pods = .ok out ∧
      out.length = pods.length ∧
      (∀ i, i < pods.length →
        out.getD i (.failed default "") = exec_single run (pods.getD i default)) ∧
      (∀ p1 p2 p3 : SdkPod, pods = [p1, p2, p3] →
        ∀ r1 r3 : SshRun, ∀ e : String,
          run p1 = .ok r1 → r1.exit_code = 0 →
          run p2 = .error e →
          run p3 = .ok r3 → r3.exit_code = 0 →
          out.length = 3 ∧
          (out.filter (fun x => ! x.success)).length = 1) := by
  have hlen : pods.length ≠ 0 := by
    intro h0
    exact hne (List.length_eq_zero.mp h0)
  have hmin : ¬ min max_workers pods.length = 0 := by
    rw [Nat.min_eq_zero_iff]
    push_neg
    exact ⟨Nat.pos_iff_ne_zero.mp hw, hlen⟩
  refine ⟨pods.map (exec_single run), ?_, by simp, ?_, ?_⟩
  · unfold exec_all
    rw [if_neg hmin]
  · intro i hi
    rw [List.getD_eq_getElem _ _ (by simpa using hi),
      List.getD_eq_getElem _ _ hi, List.getElem_map]
  · intro p1 p2 p3 hp r1 r3 e h1 hc1 h2 h3 hc3
    subst hp
    simp [exec_single, sdk_exec, h1, h2, h3, hc1, hc3, ExecAllEntry.success]

/-- Concrete targets and transport for the `exec_all` witness: the second
target's SSH call raises, the other two exit with code 0. -/
def podW1 : SdkPod := { id := "pod-1" }

def podW2 : SdkPod := { id := "pod-2" }

def podW3 : SdkPod := { id := "pod-3" }

def runW : SdkPod → Except String SshRun := fun p =>
  if p.id = "pod-2" then .error "ssh connection failed" else .ok ⟨"done", "", 0⟩

/-- Witness for `exec_all_one_entry_per_target`: 3 targets under the
default cap of 10, the second fails, the call returns (does not raise) a
result of length 3 with exactly one `success = false` entry. -/
theorem exec_all_one_entry_per_target_witness :
    exec_all runW 10 [podW1, podW2, podW3] =
      .ok ([podW1, podW2, podW3].map (exec_single runW)) ∧
    (([podW1, podW2, podW3].map (exec_single runW)).filter
        (fun x => ! x.success)).length = 1 := by
  obtain ⟨out, hok, hlen, hidx, hinst⟩ :=
    exec_all_one_entry_per_target runW 10 [podW1, podW2, podW3]
      (by norm_num) (by simp)
  have h2 : exec_all runW 10 [podW1, podW2, podW3] =
      .ok ([podW1, podW2, podW3].map (exec_single runW)) := rfl
  have hout : out = [podW1, podW2, podW3].map (exec_single runW) := by
    have h3 := hok.symm.trans h2
    injection h3
  have hflt := (hinst podW1 podW2 podW3 rfl ⟨"done", "", 0⟩ ⟨"done", "", 0⟩
    "ssh connection failed" rfl rfl rfl rfl rfl).2
  rw [hout] at hflt
  exact ⟨h2, hflt⟩

/-! ## The canonical `up` pipeline: context, options and concrete actions
(src/cli/core/options.py, context.py, actions/…) -/

/-- `UpOptions` (src/cli/core/options.py).  `volume_create_params` carries
the `name`/`description` pair; `termination_time` is an abstract
timestamp. -/
structure UpOptions where
  executor_id : Option String := none
  gpu : Option String := none
  count : Option Nat := none
  country : Option String := none
  ports : Option Nat := none
  name : Option String := none
  template_id : Option String := none
  volume_id : Option String := none
  volume_create_params : Option (String × String) := none
  skip_confirm : Bool := false
  interactive : Bool := false
  termination_time : Option Nat := none
  jupyter : Bool := false
deriving DecidableEq, Inhabited

/-- A template descriptor — only its id is read by the pipeline. -/
structure Template where
  id : String := ""
deriving DecidableEq, Inhabited

/-- A volume descriptor as returned by `lium.volume_create`. -/
structure VolumeInfo where
  id : String := ""
  huid : String := ""
  name : String := ""
deriving DecidableEq, Inhabited

/-- The raw provisioning response dict of `lium.up`: the `id` and `name`
keys read by `RentPod`. -/
structure PodDict where
  id : Option String := none
  name : Option String := none
deriving DecidableEq, Inhabited

/-- A pod snapshot as returned by `lium.ps` / the ready wait — the fields
the `up` pipeline reads (`ports` models the keys of the ports dict;
`none` in the Jupyter fields models a missing attribute). -/
structure PsPod where
  id : String := ""
  huid : String := ""
  name : String := ""
  ports : List Nat := []
  jupyter_installation_status : Option String := none
  jupyter_error : Option String := none
  jupyter_url : Option String := none
deriving DecidableEq, Inhabited

/-- `UpContext` (src/cli/core/context.py): the options plus the mutable
result slots, every slot starting out `None`.  The `lium` client and the
reporter are modelled outside the state: external calls live in `UpEnv`
and reporter calls in the emitted event list. -/
structure UpContext where
  opts : UpOptions
  executor : Option ExecutorInfo := none
  template : Option Template := none
  volume : Option VolumeInfo := none
  pod_info : Option PodDict := none
  pod_id : Option String := none
  pod : Option PsPod := none
  ssh_cmd : Option String := none
  jupyter_url : Option String := none
deriving DecidableEq, Inhabited

/-- The external collaborators of one `up` run, each modelled as the value
its call produces on this run.  Fallible calls return `Except` carrying the
raised error's message; `polls` indexes the successive `lium.ps()` snapshots
taken by the Jupyter polling loop, `ps0` is the snapshot taken before it and
`psFinal` the one taken after it. -/
structure UpEnv where
  find_executor_by_id : String → Option Nat → Option ExecutorInfo
  ls : Option String → List ExecutorInfo
  select_executor : Option ExecutorInfo
  confirm : Bool
  volume_create : String → String → Except String VolumeInfo
  get_template : String → Option Template
  select_template : Option Template
  default_docker_template : ExecutorInfo → Option Template
  pytorch_template_id : String
  up : String → String → String → Option String → Option Nat → Except String PodDict
  wait_ready : String → Except String PsPod
  ps0 : Except String (List PsPod)
  install_jupyter : String → Nat → Except String Unit
  polls : Nat → Except String (List PsPod)
  psFinal : Except String (List PsPod)
  schedule_termination : String → Nat → Except String Unit
  get_ssh_method_and_pod : Option String → Except String (String × PsPod)

/-- `ResolveExecutor.counts_as_step` (src/cli/core/actions/executor.py:19):
counts only for non-interactive resolution — an explicit id (`is not None`,
so even an empty string counts) or a truthy filter. -/
def resolveExecutorCounts (s : UpContext) : Bool :=
  s.opts.executor_id.isSome || truthyStr s.opts.gpu || truthyNat s.opts.count ||
    truthyStr s.opts.country

/-- `ResolveExecutor.execute` (src/cli/core/actions/executor.py:25): an
explicit truthy id resolves directly (with the retry handled inside the
lookup helper); truthy filters auto-select via the Pareto frontier; neither
prompts interactively.  A failed resolution reports and stops the pipeline.
Message formatting is abstracted to the executor's huid. -/
def resolveExecutorExec (env : UpEnv) (s : UpContext) : ExecResult UpContext :=
  let opts := s.opts
  if truthyStr opts.executor_id then
    match env.find_executor_by_id (opts.executor_id.getD "") opts.ports with
    | none => ⟨s, [.stepStart "Finding executor"], .stop⟩
    | some e => ⟨{s with executor := some e}, [.stepStart "Finding executor"], .cont⟩
  else if truthyStr opts.gpu || truthyNat opts.count || truthyStr opts.country then
    match _auto_select_executor env.ls opts.gpu opts.count opts.country opts.ports with
    | none => ⟨s, [.stepStart "Finding best executor"], .stop⟩
    | some e =>
      ⟨{s with executor := some e},
       [.stepStart "Finding best executor", .successMsg ("Selected: " ++ e.huid)], .cont⟩
  else
    match env.select_executor with
    | none => ⟨s, [], .stop⟩
    | some e => ⟨{s with executor := some e}, [.successMsg ("Selected: " ++ e.huid)], .cont⟩

/-- `ConfirmCreation.should_run` (src/cli/core/actions/executor.py:63). -/
def confirmShouldRun (s : UpContext) : Bool := !s.opts.skip_confirm

/-- `ConfirmCreation.execute` (src/cli/core/actions/executor.py:71): ask
the user; a decline warns and stops.  The prompt text (which reads the
executor slot) is abstracted. -/
def confirmExec (env : UpEnv) (s : UpContext) : ExecResult UpContext :=
  if env.confirm then ⟨s, [], .cont⟩
  else ⟨s, [.warningMsg "Cancelled"], .stop⟩

/-- `CreateVolumeIfNeeded.should_run` (src/cli/core/actions/pod.py:14). -/
def createVolumeShouldRun (s : UpContext) : Bool := s.opts.volume_create_params.isSome

/-- `CreateVolumeIfNeeded.execute` (src/cli/core/actions/pod.py:18): create
the volume, store it in the volume slot, and update `opts.volume_id` so
provisioning uses the created volume. -/
def createVolumeExec (env : UpEnv) (s : UpContext) : ExecResult UpContext :=
  let params := s.opts.volume_create_params.getD ("", "")
  match env.volume_create params.1 params.2 with
  | .error m => ⟨s, [.stepStart ("Creating volume " ++ params.1)], .err m⟩
  | .ok v =>
    ⟨{s with volume := some v, opts := {s.opts with volume_id := some v.id}},
     [.stepStart ("Creating volume " ++ params.1),
      .successMsg ("Created volume: " ++ v.huid)], .cont⟩

/-- `pod_info.get('id') or pod_info.get('name', '')`
(src/cli/core/actions/pod.py:79): Python `or` falls through on a missing or
empty id. -/
def podDictId (d : PodDict) : String :=
  match d.id with
  | some i => if i ≠ "" then i else d.name.getD ""
  | none => d.name.getD ""

/-- Tail of `RentPod.execute` after a template was chosen: store the
template slot, call `lium.up`, and store the raw response and the resolved
pod id. -/
def rentFinish (env : UpEnv) (s : UpContext) (executor : ExecutorInfo)
    (t : Template) : ExecResult UpContext :=
  let s2 := {s with template := some t}
  match env.up executor.id (s2.opts.name.getD "") t.id s2.opts.volume_id s2.opts.ports with
  | .error m => ⟨s2, [.stepStart "Renting machine"], .err m⟩
  | .ok d =>
    ⟨{s2 with pod_info := some d, pod_id := some (podDictId d)},
     [.stepStart "Renting machine"], .cont⟩

/-- `RentPod.execute` (src/cli/core/actions/pod.py:38): default the pod
name to the executor's huid when unset (a write to the Options), resolve
the template (interactively, by id, or by fallback), then provision.
Reading an attribute of a `None` executor or a `None` fallback template
raises `AttributeError` in Python; the embedding raises the same way. -/
def rentPodExec (env : UpEnv) (s : UpContext) : ExecResult UpContext :=
  match s.executor with
  | none => ⟨s, [], .err "AttributeError"⟩
  | some executor =>
    let s1 := if truthyStr s.opts.name then s
      else {s with opts := {s.opts with name := some executor.huid}}
    if s1.opts.interactive then
      match (if truthyStr s1.opts.template_id then
          env.get_template (s1.opts.template_id.getD "")
        else env.select_template) with
      | none => ⟨s1, [], .stop⟩
      | some t => rentFinish env s1 executor t
    else
      if truthyStr s1.opts.template_id then
        match env.get_template (s1.opts.template_id.getD "") with
        | none =>
          ⟨s1, [.errorMsg ("Template " ++ s1.opts.template_id.getD "" ++ " not found")],
           .stop⟩
        | some t => rentFinish env s1 executor t
      else
        match (match env.default_docker_template executor with
          | some t => some t
          | none => env.get_template env.pytorch_template_id) with
        | none => ⟨{s1 with template := none}, [], .err "AttributeError"⟩
        | some t => rentFinish env s1 executor t

/-- `WaitReady.execute` (src/cli/core/actions/pod.py:86): block until the
pod is ready and store the snapshot.  `wait_ready_no_timeout` polls with no
bound; the environment supplies the snapshot the poll eventually returns,
or the error it raises. -/
def waitReadyExec (env : UpEnv) (s : UpContext) : ExecResult UpContext :=
  match env.wait_ready (s.pod_id.getD "") with
  | .error m => ⟨s, [.stepStart "Loading image"], .err m⟩
  | .ok p => ⟨{s with pod := some p}, [.stepStart "Loading image"], .cont⟩

/-- `InstallJupyterIfNeeded.should_run` (src/cli/core/actions/jupyter.py:14). -/
def jupyterShouldRun (s : UpContext) : Bool := s.opts.jupyter

/-- Pod lookup by id, huid or name (src/cli/core/actions/jupyter.py:25). -/
def findPod (pods : List PsPod) (pid : String) : Option PsPod :=
  pods.find? (fun p => p.id == pid || p.huid == pid || p.name == pid)

/-- How the Jupyter polling loop ended. -/
inductive PollOut where
  | success
  | failedStatus (err : Option String)
  | timeout
  | raisedErr (msg : String)
deriving DecidableEq

/-- The polling loop of `InstallJupyterIfNeeded.execute`
(src/cli/core/actions/jupyter.py:57): up to 40 iterations
(`max_wait = 120` seconds in steps of `wait_interval = 3`), each taking one
`lium.ps()` snapshot (which may raise); break on a `SUCCESS` status, return
on a `FAILED` status, keep polling otherwise. -/
def jupyterPollLoop (env : UpEnv) (pid : String) : Nat → Nat → PollOut
  | 0, _ => .timeout
  | fuel + 1, k =>
    match env.polls k with
    | .error m => .raisedErr m
    | .ok pods =>
      match findPod pods pid with
      | some p =>
        match p.jupyter_installation_status with
        | some st =>
          if st = "SUCCESS" then .success
          else if st = "FAILED" then .failedStatus p.jupyter_error
          else jupyterPollLoop env pid fuel (k + 1)
        | none => jupyterPollLoop env pid fuel (k + 1)
      | none => jupyterPollLoop env pid fuel (k + 1)

/-- The display string the exception handler of `InstallJupyterIfNeeded`
extracts from a raised error's message
(src/cli/core/actions/jupyter.py:100): the JSON/regex parsing picks either
the embedded `message` field or a generic text, and affects presentation
only — every such path reports through `reporter.error`.  Abstracted as the
identity. -/
def jupyterErrorText (m : String) : String := m

/-- The `": <details>"` suffix of the `FAILED`-status report
(src/cli/core/actions/jupyter.py:81): present only when the pod carries a
truthy `jupyter_error`. -/
def jupyterFailedText (err : Option String) : String :=
  "Jupyter installation failed" ++
    (match err with
     | some d => if d ≠ "" then ": " ++ d else ""
     | none => "")

/-- `InstallJupyterIfNeeded.execute` (src/cli/core/actions/jupyter.py:18).
The initial `lium.ps()` lookup runs before the `try` block, so an error it
raises propagates; every later failure — pod not found, no port, no
non-SSH port, an install or polling error, a `FAILED` status — is reported
and the action returns `Continue`.  Debug-mode `dim` messages are
omitted. -/
def installJupyterExec (env : UpEnv) (s : UpContext) : ExecResult UpContext :=
  let pid := s.pod_id.getD ""
  match env.ps0 with
  | .error m => ⟨s, [], .err m⟩
  | .ok pods =>
    match findPod pods pid with
    | none => ⟨s, [.errorMsg "Could not find pod to install Jupyter"], .cont⟩
    | some pod =>
      if pod.ports.isEmpty then
        ⟨s, [.errorMsg "No ports allocated to pod for Jupyter installation"], .cont⟩
      else
        match pod.ports.filter (fun p => p ≠ 22) with
        | [] =>
          ⟨s, [.errorMsg "No suitable ports available for Jupyter (only SSH port 22 found)"],
           .cont⟩
        | jupyter_port :: _ =>
          match env.install_jupyter pid jupyter_port with
          | .error m =>
            ⟨s, [.stepStart "Installing Jupyter", .errorMsg (jupyterErrorText m)], .cont⟩
          | .ok _ =>
            match jupyterPollLoop env pid 40 0 with
            | .raisedErr m =>
              ⟨s, [.stepStart "Installing Jupyter", .errorMsg (jupyterErrorText m)], .cont⟩
            | .failedStatus errDetails =>
              ⟨s, [.stepStart "Installing Jupyter",
                   .errorMsg (jupyterFailedText errDetails)], .cont⟩
            | _ =>
              match env.psFinal with
              | .error m =>
                ⟨s, [.stepStart "Installing Jupyter", .errorMsg (jupyterErrorText m)], .cont⟩
              | .ok pods2 =>
                match findPod pods2 pid with
                | some p2 =>
                  match p2.jupyter_url with
                  | some u =>
                    if u ≠ "" then
                      ⟨{s with jupyter_url := some u}, [.stepStart "Installing Jupyter"], .cont⟩
                    else
                      ⟨s, [.stepStart "Installing Jupyter",
                           .warningMsg "Jupyter installation timed out. Run lium ps to check status"],
                       .cont⟩
                  | none =>
                    ⟨s, [.stepStart "Installing Jupyter",
                         .warningMsg "Jupyter installation timed out. Run lium ps to check status"],
                     .cont⟩
                | none =>
                  ⟨s, [.stepStart "Installing Jupyter",
                       .warningMsg "Jupyter installation timed out. Run lium ps to check status"],
                   .cont⟩

/-- `ScheduleTerminationIfNeeded.should_run`
(src/cli/core/actions/schedule.py:14). -/
def scheduleShouldRun (s : UpContext) : Bool := s.opts.termination_time.isSome

/-- `ScheduleTerminationIfNeeded.execute`
(src/cli/core/actions/schedule.py:18): call the scheduling endpoint; no
context slot is written.  Time formatting in the success message is
abstracted. -/
def scheduleExec (env : UpEnv) (s : UpContext) : ExecResult UpContext :=
  match env.schedule_termination (s.pod_id.getD "") (s.opts.termination_time.getD 0) with
  | .error m => ⟨s, [.stepStart "Scheduling termination"], .err m⟩
  | .ok _ =>
    ⟨s, [.stepStart "Scheduling termination", .successMsg "Scheduled termination"], .cont⟩

/-- `ConnectSSH.execute` (src/cli/core/actions/ssh.py:13): resolve the SSH
command and a fresh pod snapshot by the pod's name, store both (a second
write to the `pod` slot), print the summary, then hand off to the
interactive SSH session (an external effect). -/
def connectSSHExec (env : UpEnv) (s : UpContext) : ExecResult UpContext :=
  match env.get_ssh_method_and_pod s.opts.name with
  | .error m => ⟨s, [.stepStart "Connecting SSH"], .err m⟩
  | .ok r =>
    ⟨{s with ssh_cmd := some r.1, pod := some r.2},
     [.stepStart "Connecting SSH", .successMsg ("Pod ready: " ++ s.opts.name.getD "")],
     .cont⟩

/-- The canonical `up` pipeline in declared order (spec §4.4; template
resolution is folded into `RentPod` in the code). -/
def upActions (env : UpEnv) : List (PAction UpContext) :=
  [ { name := "ResolveExecutor", counts_as_step := resolveExecutorCounts,
      execute := resolveExecutorExec env },
    { name := "ConfirmCreation", should_run := confirmShouldRun,
      counts_as_step := fun _ => false, execute := confirmExec env },
    { name := "CreateVolumeIfNeeded", should_run := createVolumeShouldRun,
      execute := createVolumeExec env },
    { name := "RentPod", execute := rentPodExec env },
    { name := "WaitReady", execute := waitReadyExec env },
    { name := "InstallJupyterIfNeeded", should_run := jupyterShouldRun,
      execute := installJupyterExec env },
    { name := "ScheduleTerminationIfNeeded", should_run := scheduleShouldRun,
      execute := scheduleExec env },
    { name := "ConnectSSH", execute := connectSSHExec env } ]

/-- An environment where every external call is inert; concrete runs
override the fields they exercise. -/
def envBase : UpEnv where
  find_executor_by_id := fun _ _ => none
  ls := fun _ => []
  select_executor := none
  confirm := true
  volume_create := fun _ _ => .error "unused"
  get_template := fun _ => none
  select_template := none
  default_docker_template := fun _ => none
  pytorch_template_id := "pytorch"
  up := fun _ _ _ _ _ => .error "unused"
  wait_ready := fun _ => .error "unused"
  ps0 := .ok []
  install_jupyter := fun _ _ => .error "unused"
  polls := fun _ => .ok []
  psFinal := .ok []
  schedule_termination := fun _ _ => .ok ()
  get_ssh_method_and_pod := fun _ => .error "unused"

/-- A context whose options request Jupyter installation. -/
def ctxJ : UpContext := { opts := { jupyter := true } }

/-- An environment whose initial `lium.ps()` call raises. -/
def envPsBoom : UpEnv := {envBase with ps0 := .error "connection error"}

/-- Counterexample to C8: the initial `lium.ps()` lookup of
`InstallJupyterIfNeeded.execute` runs before the `try` block, so an error
raised there is not caught — the action (which `should_run` selected)
raises, and the pipeline suffix starting at this action ends `raised`: the
pipeline does stop because of a failure during auxiliary-service
installation. -/
theorem jupyter_initial_ps_error_raises :
    jupyterShouldRun ctxJ = true ∧
    (installJupyterExec envPsBoom ctxJ).outcome = .err "connection error" ∧
    (runLoop ctxJ ((upActions envPsBoom).drop 5)).outcome = .raised "connection error" :=
  ⟨rfl, rfl, rfl⟩

/-- C8 (amended): once the initial pod listing has succeeded, every failure
of the Jupyter installation — pod not found, no allocated port, no non-SSH
port, an error raised by the installation call or the polling, or a
remote `FAILED` status — is caught and reported through `reporter.error`,
and the action still signals Continue, so no such failure stops the
pipeline; only an error raised by the initial pod listing itself
propagates. -/
theorem jupyter_failures_noncritical (env : UpEnv) (s : UpContext)
    (pods : List PsPod) (h : env.ps0 = .ok pods) :
    (installJupyterExec env s).outcome = .cont ∧
    (findPod pods (s.pod_id.getD "") = none →
      (installJupyterExec env s).events =
        [.errorMsg "Could not find pod to install Jupyter"]) ∧
    (∀ pod, findPod pods (s.pod_id.getD "") = some pod → pod.ports = [] →
      (installJupyterExec env s).events =
        [.errorMsg "No ports allocated to pod for Jupyter installation"]) ∧
    (∀ pod, findPod pods (s.pod_id.getD "") = some pod → pod.ports ≠ [] →
      pod.ports.filter (fun p => p ≠ 22) = [] →
      (installJupyterExec env s).events =
        [.errorMsg "No suitable ports available for Jupyter (only SSH port 22 found)"]) ∧
    (∀ pod jp rest m, findPod pods (s.pod_id.getD "") = some pod →
      pod.ports.filter (fun p => p ≠ 22) = jp :: rest →
      env.install_jupyter (s.pod_id.getD "") jp = .error m →
      (installJupyterExec env s).events =
        [.stepStart "Installing Jupyter", .errorMsg (jupyterErrorText m)]) ∧
    (∀ pod jp rest d, findPod pods (s.pod_id.getD "") = some pod →
      pod.ports.filter (fun p => p ≠ 22) = jp :: rest →
      env.install_jupyter (s.pod_id.getD "") jp = .ok () →
      jupyterPollLoop env (s.pod_id.getD "") 40 0 = .failedStatus d →
      (installJupyterExec env s).events =
        [.stepStart "Installing Jupyter", .errorMsg (jupyterFailedText d)]) := by
  refine ⟨?_, ?_, ?_, ?_, ?_, ?_⟩
  · unfold installJupyterExec
    simp only [h]
    repeat' split
    all_goals rfl
  · intro hf
    unfold installJupyterExec
    simp only [h, hf]
  · intro pod hf hp
    unfold installJupyterExec
    simp only [h, hf, hp, List.isEmpty_nil, if_true]
  · intro pod hf hne hfilter
    have hie : pod.ports.isEmpty = false := by
      cases hpp : pod.ports with
      | nil => exact absurd hpp hne
      | cons a t => rfl
    unfold installJupyterExec
    simp only [h, hf, hie, Bool.false_eq_true, if_false, hfilter]
  · intro pod jp rest m hf hfilter hinst
    have hne : pod.ports ≠ [] := by
      intro hppp
      rw [hppp] at hfilter
      simp at hfilter
    have hie : pod.ports.isEmpty = false := by
      cases hpp : pod.ports with
      | nil => exact absurd hpp hne
      | cons a t => rfl
    unfold installJupyterExec
    simp only [h, hf, hie, Bool.false_eq_true, if_false, hfilter, hinst]
  · intro pod jp rest d hf hfilter hinst hpoll
    have hne : pod.ports ≠ [] := by
      intro hppp
      rw [hppp] at hfilter
      simp at hfilter
    have hie : pod.ports.isEmpty = false := by
      cases hpp : pod.ports with
      | nil => exact absurd hpp hne
      | cons a t => rfl
    unfold installJupyterExec
    simp only [h, hf, hie, Bool.false_eq_true, if_false, hfilter, hinst, hpoll]

/-- Witness for `jupyter_failures_noncritical`: with a successful but empty
pod listing, the pod is not found, the failure is reported, and the action
continues. -/
theorem jupyter_failures_noncritical_witness :
    (installJupyterExec envBase ctxJ).outcome = .cont ∧
    (installJupyterExec envBase ctxJ).events =
      [.errorMsg "Could not find pod to install Jupyter"] :=
  ⟨(jupyter_failures_noncritical envBase ctxJ [] rfl).1,
   (jupyter_failures_noncritical envBase ctxJ [] rfl).2.1 rfl⟩

/-- Pod snapshots stored by `WaitReady` and by `ConnectSSH` in one concrete
run: same pod, two different snapshots. -/
def podP1 : PsPod := { id := "pod-1", huid := "snapshot-wait" }

def podP2 : PsPod := { id := "pod-1", huid := "snapshot-ssh" }

/-- A fully-scripted environment for one complete provisioning run. -/
def env7 : UpEnv := {envBase with
  find_executor_by_id := fun _ _ => some cexA,
  volume_create := fun n _ => .ok { id := "vol-1", huid := "volume-one", name := n },
  get_template := fun tid => some { id := tid },
  up := fun _ _ _ _ _ => .ok { id := some "pod-1", name := some "pod-name" },
  wait_ready := fun _ => .ok podP1,
  get_ssh_method_and_pod := fun _ => .ok ("ssh root@host", podP2) }

/-- Options for that run: explicit executor, explicit template, volume
creation requested, confirmation skipped, no pod name given. -/
def ctx7 : UpContext :=
  { opts := { executor_id := some "exec-1", template_id := some "tmpl-1",
              volume_create_params := some ("data", "desc"), skip_confirm := true } }

/-- Counterexample to C7: in a complete run of the canonical pipeline the
ready-state snapshot slot (`pod`) is written twice, by two different
Actions — `WaitReady` stores one snapshot and `ConnectSSH` overwrites it
with another — and the Options held by the Context are modified by
Actions: `CreateVolumeIfNeeded` sets `opts.volume_id` and `RentPod` sets
the `opts.name` default. -/
theorem context_slot_rewritten_and_options_mutated :
    (runLoop ctx7 ((upActions env7).take 5)).state.pod = some podP1 ∧
    (runLoop ctx7 (upActions env7)).state.pod = some podP2 ∧
    podP1 ≠ podP2 ∧
    (runLoop ctx7 (upActions env7)).outcome = .completed ∧
    ctx7.opts.volume_id = none ∧
    (runLoop ctx7 ((upActions env7).take 3)).state.opts.volume_id = some "vol-1" ∧
    ctx7.opts.name = none ∧
    (runLoop ctx7 ((upActions env7).take 4)).state.opts.name = some "exec-a" :=
  ⟨rfl, rfl, by decide, rfl, rfl, rfl, rfl, rfl⟩

lemma resolveExecutor_frame (env : UpEnv) (s : UpContext) :
    (resolveExecutorExec env s).state.opts = s.opts ∧
    (resolveExecutorExec env s).state.template = s.template ∧
    (resolveExecutorExec env s).state.volume = s.volume ∧
    (resolveExecutorExec env s).state.pod_info = s.pod_info ∧
    (resolveExecutorExec env s).state.pod_id = s.pod_id ∧
    (resolveExecutorExec env s).state.pod = s.pod ∧
    (resolveExecutorExec env s).state.ssh_cmd = s.ssh_cmd ∧
    (resolveExecutorExec env s).state.jupyter_url = s.jupyter_url := by
  simp only [resolveExecutorExec]
  refine ⟨?_, ?_, ?_, ?_, ?_, ?_, ?_, ?_⟩ <;> (repeat' split) <;> rfl

lemma createVolume_frame (env : UpEnv) (s : UpContext) :
    (createVolumeExec env s).state.executor = s.executor ∧
    (createVolumeExec env s).state.template = s.template ∧
    (createVolumeExec env s).state.pod_info = s.pod_info ∧
    (createVolumeExec env s).state.pod_id = s.pod_id ∧
    (createVolumeExec env s).state.pod = s.pod ∧
    (createVolumeExec env s).state.ssh_cmd = s.ssh_cmd ∧
    (createVolumeExec env s).state.jupyter_url = s.jupyter_url ∧
    (createVolumeExec env s).state.opts =
      {s.opts with volume_id := (createVolumeExec env s).state.opts.volume_id} := by
  simp only [createVolumeExec]
  refine ⟨?_, ?_, ?_, ?_, ?_, ?_, ?_, ?_⟩ <;> (repeat' split) <;> rfl

lemma rentPod_frame (env : UpEnv) (s : UpContext) :
    (rentPodExec env s).state.executor = s.executor ∧
    (rentPodExec env s).state.volume = s.volume ∧
    (rentPodExec env s).state.pod = s.pod ∧
    (rentPodExec env s).state.ssh_cmd = s.ssh_cmd ∧
    (rentPodExec env s).state.jupyter_url = s.jupyter_url ∧
    (rentPodExec env s).state.opts =
      {s.opts with name := (rentPodExec env s).state.opts.name} := by
  simp only [rentPodExec, rentFinish]
  refine ⟨?_, ?_, ?_, ?_, ?_, ?_⟩ <;> (repeat' split) <;> rfl

lemma waitReady_frame (env : UpEnv) (s : UpContext) :
    (waitReadyExec env s).state.opts = s.opts ∧
    (waitReadyExec env s).state.executor = s.executor ∧
    (waitReadyExec env s).state.template = s.template ∧
    (waitReadyExec env s).state.volume = s.volume ∧
    (waitReadyExec env s).state.pod_info = s.pod_info ∧
    (waitReadyExec env s).state.pod_id = s.pod_id ∧
    (waitReadyExec env s).state.ssh_cmd = s.ssh_cmd ∧
    (waitReadyExec env s).state.jupyter_url = s.jupyter_url := by
  simp only [waitReadyExec]
  refine ⟨?_, ?_, ?_, ?_, ?_, ?_, ?_, ?_⟩ <;> (repeat' split) <;> rfl

lemma installJupyter_frame (env : UpEnv) (s : UpContext) :
    (installJupyterExec env s).state.opts = s.opts ∧
    (installJupyterExec env s).state.executor = s.executor ∧
    (installJupyterExec env s).state.template = s.template ∧
    (installJupyterExec env s).state.volume = s.volume ∧
    (installJupyterExec env s).state.pod_info = s.pod_info ∧
    (installJupyterExec env s).state.pod_id = s.pod_id ∧
    (installJupyterExec env s).state.pod = s.pod ∧
    (installJupyterExec env s).state.ssh_cmd = s.ssh_cmd := by
  simp only [installJupyterExec]
  refine ⟨?_, ?_, ?_, ?_, ?_, ?_, ?_, ?_⟩ <;> (repeat' split) <;> rfl

lemma connectSSH_frame (env : UpEnv) (s : UpContext) :
    (connectSSHExec env s).state.opts = s.opts ∧
    (connectSSHExec env s).state.executor = s.executor ∧
    (connectSSHExec env s).state.template = s.template ∧
    (connectSSHExec env s).state.volume = s.volume ∧
    (connectSSHExec env s).state.pod_info = s.pod_info ∧
    (connectSSHExec env s).state.pod_id = s.pod_id ∧
    (connectSSHExec env s).state.jupyter_url = s.jupyter_url := by
  simp only [connectSSHExec]
  refine ⟨?_, ?_, ?_, ?_, ?_, ?_, ?_⟩ <;> (repeat' split) <;> rfl

/-- C7 (amended): over any context and environment, each Action of the
canonical pipeline writes only its designated slots.  `ResolveExecutor`
writes only the candidate; `ConfirmCreation` and
`ScheduleTerminationIfNeeded` write nothing; `CreateVolumeIfNeeded` writes
the volume slot and the `volume_id` Options field; `RentPod` writes the
template, raw response and resource-identifier slots and the `name`
Options default; `WaitReady` writes the ready-state snapshot;
`InstallJupyterIfNeeded` writes the auxiliary URL; `ConnectSSH` writes the
connection command and (a second write) the ready-state snapshot.  So every
slot except the ready-state snapshot has a single writing Action, and the
Options are unmodified except `volume_id` and the `name` default. -/
theorem up_actions_write_sets (env : UpEnv) (s : UpContext) :
    ((resolveExecutorExec env s).state.opts = s.opts ∧
     (resolveExecutorExec env s).state.template = s.template ∧
     (resolveExecutorExec env s).state.volume = s.volume ∧
     (resolveExecutorExec env s).state.pod_info = s.pod_info ∧
     (resolveExecutorExec env s).state.pod_id = s.pod_id ∧
     (resolveExecutorExec env s).state.pod = s.pod ∧
     (resolveExecutorExec env s).state.ssh_cmd = s.ssh_cmd ∧
     (resolveExecutorExec env s).state.jupyter_url = s.jupyter_url) ∧
    (confirmExec env s).state = s ∧
    ((createVolumeExec env s).state.executor = s.executor ∧
     (createVolumeExec env s).state.template = s.template ∧
     (createVolumeExec env s).state.pod_info = s.pod_info ∧
     (createVolumeExec env s).state.pod_id = s.pod_id ∧
     (createVolumeExec env s).state.pod = s.pod ∧
     (createVolumeExec env s).state.ssh_cmd = s.ssh_cmd ∧
     (createVolumeExec env s).state.jupyter_url = s.jupyter_url ∧
     (createVolumeExec env s).state.opts =
       {s.opts with volume_id := (createVolumeExec env s).state.opts.volume_id}) ∧
    ((rentPodExec env s).state.executor = s.executor ∧
     (rentPodExec env s).state.volume = s.volume ∧
     (rentPodExec env s).state.pod = s.pod ∧
     (rentPodExec env s).state.ssh_cmd = s.ssh_cmd ∧
     (rentPodExec env s).state.jupyter_url = s.jupyter_url ∧
     (rentPodExec env s).state.opts =
       {s.opts with name := (rentPodExec env s).state.opts.name}) ∧
    ((waitReadyExec env s).state.opts = s.opts ∧
     (waitReadyExec env s).state.executor = s.executor ∧
     (waitReadyExec env s).state.template = s.template ∧
     (waitReadyExec env s).state.volume = s.volume ∧
     (waitReadyExec env s).state.pod_info = s.pod_info ∧
     (waitReadyExec env s).state.pod_id = s.pod_id ∧
     (waitReadyExec env s).state.ssh_cmd = s.ssh_cmd ∧
     (waitReadyExec env s).state.jupyter_url = s.jupyter_url) ∧
    ((installJupyterExec env s).state.opts = s.opts ∧
     (installJupyterExec env s).state.executor = s.executor ∧
     (installJupyterExec env s).state.template = s.template ∧
     (installJupyterExec env s).state.volume = s.volume ∧
     (installJupyterExec env s).state.pod_info = s.pod_info ∧
     (installJupyterExec env s).state.pod_id = s.pod_id ∧
     (installJupyterExec env s).state.pod = s.pod ∧
     (installJupyterExec env s).state.ssh_cmd = s.ssh_cmd) ∧
    (scheduleExec env s).state = s ∧
    ((connectSSHExec env s).state.opts = s.opts ∧
     (connectSSHExec env s).state.executor = s.executor ∧
     (connectSSHExec env s).state.template = s.template ∧
     (connectSSHExec env s).state.volume = s.volume ∧
     (connectSSHExec env s).state.pod_info = s.pod_info ∧
     (connectSSHExec env s).state.pod_id = s.pod_id ∧
     (connectSSHExec env s).state.jupyter_url = s.jupyter_url) := by
  refine ⟨resolveExecutor_frame env s, ?_, createVolume_frame env s,
    rentPod_frame env s, waitReady_frame env s, installJupyter_frame env s, ?_,
    connectSSH_frame env s⟩
  · unfold confirmExec
    split <;> rfl
  · unfold scheduleExec
    split <;> rfl

end LiumCLI
